import Mathlib

/-
  Verification development for the advanced-text-to-sql-rag web client.

  Part A embeds the result-shape-driven chart selector implemented in the
  ResultsVisualizer component (the analysisResult memo): rows are open
  mappings from column names to JavaScript scalar values, and the selector
  is a pure function from a result set to a chart specification.

  Part B embeds the reconnecting WebSocket hook (useWebSocket dot ts) as an
  explicit state machine: the React refs and state cells become record
  fields, each event handler and callback becomes a step function, and
  reachability is the closure of the initial state under those steps.

  JavaScript numbers are modelled as exact rationals extended with NaN and
  the two infinities.  Floating point rounding is not modelled; none of
  the properties below depends on it.
-/

namespace RagClient

/-
  Exact rational arithmetic.  The rational operations of the ambient
  library are markedly not kernel-reducible, so the embedding carries its
  own operations written directly on numerator and denominator; mkRat
  keeps every result in normal form, hence structural equality on ℚ is
  value equality.
-/

/-- Rational addition. -/
def qAdd (a b : ℚ) : ℚ := mkRat (a.num * b.den + b.num * a.den) (a.den * b.den)

/-- Rational multiplication. -/
def qMul (a b : ℚ) : ℚ := mkRat (a.num * b.num) (a.den * b.den)

/-- Rational division (0 on a zero divisor; callers test for that case
first). -/
def qDiv (a b : ℚ) : ℚ :=
  if b.num < 0 then mkRat (-(a.num * b.den)) (a.den * b.num.natAbs)
  else mkRat (a.num * b.den) (a.den * b.num.natAbs)

/-- Rational negation. -/
def qNeg (a : ℚ) : ℚ := mkRat (-a.num) a.den

/-- Rational comparison, as a Boolean. -/
def qLeB (a b : ℚ) : Bool := a.num * (b.den : Int) ≤ b.num * (a.den : Int)

/-- The smaller of two rationals (Math.min on finite arguments). -/
def qMin (a b : ℚ) : ℚ := if qLeB a b then a else b

/-- Ten to a signed power. -/
def qPow10 (ex : Int) : ℚ :=
  if 0 ≤ ex then ((10 ^ ex.toNat : Nat) : ℚ) else mkRat 1 (10 ^ (-ex).toNat)

/-- A JavaScript number: a finite value (modelled exactly as a rational),
NaN, or one of the two infinities. -/
inductive JsNum where
  | fin (q : ℚ)
  | nan
  | posInf
  | negInf
deriving DecidableEq, Repr

/-- A JavaScript scalar value as it can occur in a result row. -/
inductive Value where
  | str (s : String)
  | num (x : JsNum)
  | boolean (b : Bool)
  | null
  | undefined
deriving DecidableEq, Repr

/-- Value of one digit character in the given base, if it is a valid digit. -/
def digitVal (base : Nat) (c : Char) : Option Nat :=
  let v : Option Nat :=
    if c.isDigit then some (c.toNat - 48)
    else if 97 ≤ c.toNat ∧ c.toNat ≤ 102 then some (c.toNat - 87)
    else if 65 ≤ c.toNat ∧ c.toNat ≤ 70 then some (c.toNat - 55)
    else none
  match v with
  | some n => if n < base then some n else none
  | none => none

/-- Value of a non-empty digit string in the given base. -/
def digitsVal (base : Nat) (cs : List Char) : Option Nat :=
  if cs.isEmpty then none
  else cs.foldl (fun acc c =>
    match acc, digitVal base c with
    | some a, some d => some (a * base + d)
    | _, _ => none) (some 0)

/-- Mantissa of a decimal numeric literal: digits, optionally followed by a
dot and further digits, or a dot followed by digits. -/
def decMantissa (cs : List Char) : Option ℚ :=
  let ip := cs.takeWhile Char.isDigit
  let rest := cs.dropWhile Char.isDigit
  match rest with
  | [] =>
      match digitsVal 10 ip with
      | some n => some (n : ℚ)
      | none => none
  | '.' :: fp =>
      if fp.all Char.isDigit then
        if ip.isEmpty ∧ fp.isEmpty then none
        else
          let ipv : ℚ := match digitsVal 10 ip with | some n => (n : ℚ) | none => 0
          let fpv : ℚ := match digitsVal 10 fp with
            | some n => mkRat (n : Int) (10 ^ fp.length)
            | none => 0
          some (qAdd ipv fpv)
      else none
  | _ => none

/-- Split a literal at the first exponent marker. -/
def splitOnExp (cs : List Char) : List Char × Option (List Char) :=
  match cs.findIdx? (fun c => c == 'e' || c == 'E') with
  | some i => (cs.take i, some (cs.drop (i + 1)))
  | none => (cs, none)

/-- Signed decimal exponent part. -/
def parseExpPart (cs : List Char) : Option Int :=
  match cs with
  | '+' :: ds => (digitsVal 10 ds).map (fun n => (n : Int))
  | '-' :: ds => (digitsVal 10 ds).map (fun n => -(n : Int))
  | ds => (digitsVal 10 ds).map (fun n => (n : Int))

/-- Unsigned decimal literal with optional exponent. -/
def decLiteral (cs : List Char) : Option ℚ :=
  let (m, e) := splitOnExp cs
  match e with
  | none => decMantissa m
  | some ep =>
      match decMantissa m, parseExpPart ep with
      | some q, some ex => some (qMul q (qPow10 ex))
      | _, _ => none

/-- Unsigned part of a string numeric literal: the word Infinity or a
decimal literal. -/
def unsignedDecOrInfinity (cs : List Char) : Option JsNum :=
  if cs = "Infinity".toList then some .posInf
  else (decLiteral cs).map .fin

/-- JavaScript unary negation on numbers. -/
def negJs : JsNum → JsNum
  | .fin q => .fin (qNeg q)
  | .nan => .nan
  | .posInf => .negInf
  | .negInf => .posInf

/-- Optionally signed decimal literal or Infinity; anything else is NaN. -/
def signedDec (cs : List Char) : JsNum :=
  match cs with
  | '+' :: rest => (unsignedDecOrInfinity rest).getD JsNum.nan
  | '-' :: rest => negJs ((unsignedDecOrInfinity rest).getD JsNum.nan)
  | rest => (unsignedDecOrInfinity rest).getD JsNum.nan

/-- Strip leading and trailing whitespace from a character list. -/
def jsTrimChars (cs : List Char) : List Char :=
  ((cs.dropWhile Char.isWhitespace).reverse.dropWhile Char.isWhitespace).reverse

/-- The JavaScript string-to-number coercion: trim whitespace, the empty
string is 0, hex, octal and binary prefixed literals, otherwise an
optionally signed decimal literal or Infinity, and NaN for everything
else. -/
def strToNumber (s : String) : JsNum :=
  match jsTrimChars s.toList with
  | [] => .fin 0
  | '0' :: c :: rest =>
      if c == 'x' || c == 'X' then
        match digitsVal 16 rest with | some n => .fin (n : ℚ) | none => .nan
      else if c == 'o' || c == 'O' then
        match digitsVal 8 rest with | some n => .fin (n : ℚ) | none => .nan
      else if c == 'b' || c == 'B' then
        match digitsVal 2 rest with | some n => .fin (n : ℚ) | none => .nan
      else signedDec ('0' :: c :: rest)
  | t => signedDec t

/-- The JavaScript Number coercion on scalar values, as used by the
selector via Number(val). -/
def toNumber : Value → JsNum
  | .str s => strToNumber s
  | .num x => x
  | .boolean b => .fin (if b then 1 else 0)
  | .null => .fin 0
  | .undefined => .nan

/-- JavaScript truthiness of a scalar value. -/
def truthy : Value → Bool
  | .str s => s != ""
  | .num (.fin q) => q != 0
  | .num .nan => false
  | .num .posInf => true
  | .num .negInf => true
  | .boolean b => b
  | .null => false
  | .undefined => false

/-- JavaScript addition on numbers. -/
def jsAdd : JsNum → JsNum → JsNum
  | .nan, _ => .nan
  | _, .nan => .nan
  | .posInf, .negInf => .nan
  | .negInf, .posInf => .nan
  | .posInf, _ => .posInf
  | _, .posInf => .posInf
  | .negInf, _ => .negInf
  | _, .negInf => .negInf
  | .fin a, .fin b => .fin (qAdd a b)

/-- JavaScript division on numbers.  Negative zero is not modelled, so a
finite value divided by zero follows the sign of the numerator. -/
def jsDiv : JsNum → JsNum → JsNum
  | .nan, _ => .nan
  | _, .nan => .nan
  | .posInf, .posInf => .nan
  | .posInf, .negInf => .nan
  | .negInf, .posInf => .nan
  | .negInf, .negInf => .nan
  | .posInf, .fin b => if b.num < 0 then .negInf else .posInf
  | .negInf, .fin b => if b.num < 0 then .posInf else .negInf
  | .fin _, .posInf => .fin 0
  | .fin _, .negInf => .fin 0
  | .fin a, .fin b =>
      if b = 0 then (if a = 0 then .nan else if a.num < 0 then .negInf else .posInf)
      else .fin (qDiv a b)

/-- The idiom x or-else 0 from the source (falsy numbers, that is 0 and
NaN, are replaced by 0). -/
def jsOr0 (x : JsNum) : JsNum :=
  match x with
  | .nan => .fin 0
  | y => y

/-- JavaScript number-to-string conversion.  Exact for NaN, the infinities
and integers; for non-integer rationals the JavaScript float formatting is
approximated by the rational representation.  No claim below evaluates the
non-integer case. -/
def numToString : JsNum → String
  | .nan => "NaN"
  | .posInf => "Infinity"
  | .negInf => "-Infinity"
  | .fin q => if q.den = 1 then toString q.num else toString q

/-- JavaScript string coercion of a scalar value, as performed when a value
is used as an object key. -/
def jsToString : Value → String
  | .str s => s
  | .num x => numToString x
  | .boolean b => if b then "true" else "false"
  | .null => "null"
  | .undefined => "undefined"

/-- A row is an ordered mapping from column names to scalar values. -/
abbrev Row := List (String × Value)

/-- A result set is an ordered sequence of rows. -/
abbrev ResultSet := List Row

/-- Property read row[col]: the value stored under the column name, or
undefined when the key is absent. -/
def getVal (row : Row) (col : String) : Value :=
  match row.lookup col with
  | some v => v
  | none => .undefined

/-- Object.keys of the first row: the column set of the result set, in key
insertion order.  (JavaScript would list integer-like keys first; no input
considered below has integer-like column names.) -/
def columnsOf : ResultSet → List String
  | [] => []
  | row :: _ => row.map Prod.fst

/-- The distinct values of a list under JavaScript Set membership
(SameValueZero), in first-seen order. -/
def distinctVals (vs : List Value) : List Value :=
  vs.foldl (fun acc v => if v ∈ acc then acc else acc ++ [v]) []

/-- The sample used by the numeric-column test: the values of one column
over the first 10 rows. -/
def sampleValues (data : ResultSet) (col : String) : List Value :=
  (data.take 10).map (fun row => getVal row col)

/-- The numeric columns: every sample value is neither null nor undefined
and its Number coercion is not NaN. -/
def numericColumns (data : ResultSet) : List String :=
  (columnsOf data).filter (fun col =>
    (sampleValues data col).all (fun v =>
      decide (v ≠ Value.null) && decide (v ≠ Value.undefined) &&
      decide (toNumber v ≠ JsNum.nan)))

/-- The categorical columns: the distinct-value count over the whole
result set is at most min 20 (0.8 times the row count) and exceeds 1.
The source literal 0.8 is written as the exact rational 4/5. -/
def categoricalColumns (data : ResultSet) : List String :=
  (columnsOf data).filter (fun col =>
    let uniq := distinctVals (data.map (fun row => getVal row col))
    qLeB (uniq.length : ℚ) (qMin (20 : ℚ) (qMul (mkRat 4 5) (data.length : ℚ))) &&
    decide (1 < uniq.length))

/-- Precondition of the bar branch. -/
def hasBar (data : ResultSet) : Bool :=
  decide (1 ≤ (numericColumns data).length) &&
  decide (1 ≤ (categoricalColumns data).length)

/-- Precondition of the scatter branch. -/
def hasScatter (data : ResultSet) : Bool :=
  decide (2 ≤ (numericColumns data).length)

/-- Precondition of the pie branch. -/
def hasPie (data : ResultSet) : Bool :=
  decide ((categoricalColumns data).length = 1) && decide (data.length ≤ 20)

/-- Precondition of the line branch. -/
def hasLine (data : ResultSet) : Bool :=
  decide (1 ≤ (numericColumns data).length) && decide (5 < data.length)

/-- One entry of the bar aggregation object: the stringified group key (the
object key), the name field (the raw first-seen value), the running total
stored under the numeric column name, and the row count. -/
structure BarAccEntry where
  key : String
  name : Value
  total : JsNum
  count : Nat
deriving DecidableEq, Repr

/-- The bar-branch reduce: group rows by the stringified value of the
category column, accumulating the Number coercion of the numeric column
(falsy coercions replaced by 0) and the group size, in key insertion
order. -/
def barAggregate (data : ResultSet) (categoryCol numericCol : String) :
    List BarAccEntry :=
  data.foldl (fun acc row =>
    let keyVal := getVal row categoryCol
    let key := jsToString keyVal
    let x := jsOr0 (toNumber (getVal row numericCol))
    if acc.any (fun e => e.key == key) then
      acc.map (fun e =>
        if e.key == key then ⟨e.key, e.name, jsAdd e.total x, e.count + 1⟩ else e)
    else
      acc ++ [⟨key, keyVal, jsAdd (JsNum.fin 0) x, 1⟩]) []

/-- The bar chart data: one point per group, carrying the name field, the
group average under the numeric column name, and the count field. -/
def barChartData (data : ResultSet) : ResultSet :=
  let categoryCol := (categoricalColumns data).getD 0 ""
  let numericCol := (numericColumns data).getD 0 ""
  (barAggregate data categoryCol numericCol).map (fun e =>
    [("name", e.name),
     (numericCol, Value.num (jsDiv e.total (JsNum.fin (e.count : ℚ)))),
     ("count", Value.num (JsNum.fin (e.count : ℚ)))])

/-- The scatter chart data: one x, y, id point per row from the first two
numeric columns, non-numeric coercions replaced by 0. -/
def scatterChartData (data : ResultSet) : ResultSet :=
  data.enum.map (fun p =>
    [("x", Value.num (jsOr0 (toNumber (getVal p.2 ((numericColumns data).getD 0 ""))))),
     ("y", Value.num (jsOr0 (toNumber (getVal p.2 ((numericColumns data).getD 1 ""))))),
     ("id", Value.num (JsNum.fin (p.1 : ℚ)))])

/-- The pie-branch reduce: occurrence counts per stringified value of the
category column, in key insertion order. -/
def pieCounts (data : ResultSet) (categoryCol : String) : List (String × Nat) :=
  data.foldl (fun acc row =>
    let key := jsToString (getVal row categoryCol)
    if acc.any (fun e => e.1 == key) then
      acc.map (fun e => if e.1 == key then (e.1, e.2 + 1) else e)
    else acc ++ [(key, 1)]) []

/-- The pie chart data: one name, value point per distinct category
value. -/
def pieChartData (data : ResultSet) : ResultSet :=
  (pieCounts data ((categoricalColumns data).getD 0 "")).map (fun e =>
    [("name", Value.str e.1), ("value", Value.num (JsNum.fin (e.2 : ℚ)))])

/-- The line chart data: one index, value, name point per row in row order;
the name is the first column value when truthy, else a synthesized Row
label. -/
def lineChartData (data : ResultSet) : ResultSet :=
  data.enum.map (fun p =>
    [("index", Value.num (JsNum.fin (p.1 : ℚ))),
     ("value", Value.num (jsOr0 (toNumber (getVal p.2 ((numericColumns data).getD 0 ""))))),
     ("name",
       let v := getVal p.2 ((columnsOf data).getD 0 "")
       if truthy v then v else Value.str ("Row " ++ toString (p.1 + 1)))])

/-- The chart kinds produced by the source, including the table fallback
for non-empty result sets matching no rule. -/
inductive ChartType where
  | none
  | bar
  | scatter
  | pie
  | line
  | table
deriving DecidableEq, Repr

/-- The full output of the selector. -/
structure AnalysisResult where
  chartType : ChartType
  chartData : ResultSet
  numericColumns : List String
  categoricalColumns : List String
deriving DecidableEq, Repr

/-- The chart selector itself: the analysisResult memo of the
ResultsVisualizer component, as an ordered decision chain.  The function
is total over every result set of arbitrary scalar values, which models
the never-raises contract. -/
def analysisResult (data : ResultSet) : AnalysisResult :=
  if data.isEmpty then ⟨.none, [], [], []⟩
  else if hasBar data then
    ⟨.bar, barChartData data, numericColumns data, categoricalColumns data⟩
  else if hasScatter data then
    ⟨.scatter, scatterChartData data, numericColumns data, categoricalColumns data⟩
  else if hasPie data then
    ⟨.pie, pieChartData data, numericColumns data, categoricalColumns data⟩
  else if hasLine data then
    ⟨.line, lineChartData data, numericColumns data, categoricalColumns data⟩
  else ⟨.table, data, numericColumns data, categoricalColumns data⟩

/-- The chart kinds named by the specification.  The specification folds
the table fallback of the source into its none kind: none is stated there
to carry the original result set unmodified as the raw-table fallback. -/
inductive SpecChartKind where
  | none
  | bar
  | line
  | pie
  | scatter
deriving DecidableEq, Repr

/-- Abstraction from the source chart kinds to the specification kinds:
both the empty-input kind and the tabular fallback are the specification
kind none. -/
def toSpecKind : ChartType → SpecChartKind
  | .none => .none
  | .table => .none
  | .bar => .bar
  | .scatter => .scatter
  | .pie => .pie
  | .line => .line

/-- The name-and-value view of a bar series used by the specification: the
name field paired with the field stored under the first numeric column
name. -/
def specBarSeries (a : AnalysisResult) : List (Value × Value) :=
  a.chartData.map (fun p => (getVal p "name", getVal p (a.numericColumns.getD 0 "")))

/-- The worked example of the specification: three rows of departments and
salaries. -/
def rsC2 : ResultSet :=
  [[("dept", .str "Eng"), ("sal", .num (.fin 100))],
   [("dept", .str "Eng"), ("sal", .num (.fin 200))],
   [("dept", .str "Sales"), ("sal", .num (.fin 300))]]

/-- A result set satisfying both the bar and the scatter precondition:
two numeric columns and one categorical column. -/
def rsBoth : ResultSet :=
  [[("a", .num (.fin 1)), ("b", .num (.fin 2)), ("c", .str "u")],
   [("a", .num (.fin 3)), ("b", .num (.fin 4)), ("c", .str "v")],
   [("a", .num (.fin 5)), ("b", .num (.fin 6)), ("c", .str "u")]]

/-- A single row with a single non-numeric column: no decision rule
matches. -/
def rsFallback : ResultSet := [[("a", .str "x")]]

/-- A single row whose only column holds the string Infinity: its Number
coercion is the infinite value, which is not NaN but also not finite. -/
def rsInf : ResultSet := [[("a", .str "Infinity")]]

/-- A single row with one finite numeric column. -/
def rsNum : ResultSet := [[("n", .num (.fin 7))]]

/-- Finiteness of a JavaScript number. -/
def jsFinite : JsNum → Bool
  | .fin _ => true
  | _ => false

/-- Claim C4 as stated: a first-row column is classified numeric exactly
when every sample value is non-null, non-undefined and coerces to a
finite number. -/
def numericFiniteClaim : Prop :=
  ∀ data : ResultSet, data ≠ [] → ∀ col ∈ columnsOf data,
    (col ∈ numericColumns data ↔
      ∀ v ∈ sampleValues data col,
        v ≠ Value.null ∧ v ≠ Value.undefined ∧ jsFinite (toNumber v) = true)

/-- C1: for every non-empty result set the decision chain is respected in
priority order: the bar precondition alone forces the bar kind, even when
the scatter precondition also holds; scatter is reached only when bar
fails; pie only when bar and scatter fail; line only when bar, scatter
and pie fail. -/
theorem c1_decision_priority (data : ResultSet) (h : data ≠ []) :
    (hasBar data = true → (analysisResult data).chartType = .bar) ∧
    ((analysisResult data).chartType = .scatter →
      hasBar data = false ∧ hasScatter data = true) ∧
    ((analysisResult data).chartType = .pie →
      hasBar data = false ∧ hasScatter data = false ∧ hasPie data = true) ∧
    ((analysisResult data).chartType = .line →
      hasBar data = false ∧ hasScatter data = false ∧ hasPie data = false ∧
      hasLine data = true) := by
  have hE : data.isEmpty = false := by
    cases data with
    | nil => exact absurd rfl h
    | cons a l => rfl
  unfold analysisResult
  rw [hE]
  cases hB : hasBar data <;> cases hS : hasScatter data <;>
    cases hP : hasPie data <;> cases hL : hasLine data <;> simp

/-- Witness for C1 at a concrete result set satisfying both the bar and
the scatter precondition. -/
theorem c1_witness :
    (rsBoth ≠ [] ∧ hasBar rsBoth = true ∧ hasScatter rsBoth = true) ∧
    (analysisResult rsBoth).chartType = .bar :=
  ⟨by decide, (c1_decision_priority rsBoth (by decide)).1 (by decide)⟩

/-- C2: on the worked example of the specification the selector picks the
bar kind; the full output groups by the dept column in first-seen order
and stores the sal averages, and its name-and-value view is exactly the
series the specification expects. -/
theorem c2_bar_series :
    analysisResult rsC2 = ⟨.bar,
      [[("name", .str "Eng"), ("sal", .num (.fin 150)), ("count", .num (.fin 2))],
       [("name", .str "Sales"), ("sal", .num (.fin 300)), ("count", .num (.fin 1))]],
      ["sal"], ["dept"]⟩ ∧
    specBarSeries (analysisResult rsC2) =
      [(.str "Eng", .num (.fin 150)), (.str "Sales", .num (.fin 300))] := by decide

/-- C3: a non-empty result set matched by no decision rule lands in the
tabular fallback, whose specification kind is none and whose payload is
the original result set unmodified.  The selector is a total function
over arbitrary scalar values, which models the never-raises contract. -/
theorem c3_fallback_none (data : ResultSet) (h : data ≠ [])
    (hB : hasBar data = false) (hS : hasScatter data = false)
    (hP : hasPie data = false) (hL : hasLine data = false) :
    toSpecKind (analysisResult data).chartType = .none ∧
    (analysisResult data).chartData = data := by
  have hE : data.isEmpty = false := by
    cases data with
    | nil => exact absurd rfl h
    | cons a l => rfl
  unfold analysisResult
  rw [hE, hB, hS, hP, hL]
  exact ⟨rfl, rfl⟩

/-- Witness for C3 at a concrete fallback input. -/
theorem c3_witness :
    (rsFallback ≠ [] ∧ hasBar rsFallback = false ∧ hasScatter rsFallback = false ∧
      hasPie rsFallback = false ∧ hasLine rsFallback = false) ∧
    toSpecKind (analysisResult rsFallback).chartType = .none ∧
    (analysisResult rsFallback).chartData = rsFallback :=
  ⟨by decide, c3_fallback_none rsFallback (by decide) (by decide) (by decide)
    (by decide) (by decide)⟩

/-- C4 as stated is false: the code only rejects NaN coercions, so a
column whose value is the string Infinity is classified numeric although
its coercion is not finite. -/
theorem c4_counterexample : ¬ numericFiniteClaim := by
  intro hclaim
  have h1 := (hclaim rsInf (by decide) "a" (by decide)).mp (by decide)
  have h2 := h1 (Value.str "Infinity") (by decide)
  exact absurd h2.2.2 (by decide)

/-- C4 amended: a first-row column is classified numeric exactly when
every sample value (the column over the first 10 rows) is non-null,
non-undefined and its Number coercion is not NaN (an infinite coercion is
accepted). -/
theorem c4_numeric_iff (data : ResultSet) (h : data ≠ []) (col : String)
    (hc : col ∈ columnsOf data) :
    col ∈ numericColumns data ↔
      ∀ v ∈ sampleValues data col,
        v ≠ Value.null ∧ v ≠ Value.undefined ∧ toNumber v ≠ JsNum.nan := by
  unfold numericColumns
  rw [List.mem_filter]
  simp [hc, List.all_eq_true, and_assoc]

/-- Witness for the amended C4 at a concrete one-column result set. -/
theorem c4_witness :
    (rsNum ≠ [] ∧ "n" ∈ columnsOf rsNum) ∧
    ("n" ∈ numericColumns rsNum ↔
      ∀ v ∈ sampleValues rsNum "n",
        v ≠ Value.null ∧ v ≠ Value.undefined ∧ toNumber v ≠ JsNum.nan) :=
  ⟨by decide, c4_numeric_iff rsNum (by decide) "n" (by decide)⟩

/-
  Part B: the reconnecting WebSocket hook.

  The React refs and state cells of useWebSocket become the fields of a
  World record: the connection status, the last received message, the
  stored socket handle (ws ref), the stored timer handle
  (reconnectTimeoutRef), and the retry counter (reconnectAttempts ref).
  The world additionally carries the environment the hook interacts with:
  the pool of every socket ever constructed, the pending timeouts, a log
  of transmitted frames, a log of close calls issued by the hook, and the
  fresh-identifier counters.  Sockets keep their handlers after the ws
  ref is reassigned, so transport events address any socket in the pool.

  Each handler and callback of the hook is a total step function; an
  event that cannot occur (for instance a close event on an already
  closed socket) leaves the world unchanged.  A close event on a socket
  that never reached the OPEN state reports code 1006, as the WebSocket
  protocol prescribes for a failed connection attempt; a socket that was
  open may be closed with any code by the peer, which subsumes the echo
  of a locally requested close code.  JSON framing of payloads is not
  modelled: a transmitted frame is recorded as the message itself.
-/

/-- The readyState values of a browser WebSocket. -/
inductive ReadyState where
  | CONNECTING
  | OPEN
  | CLOSING
  | CLOSED
deriving DecidableEq, Repr

/-- The connectionStatus values of the hook. -/
inductive Status where
  | Connecting
  | Connected
  | Disconnected
  | Error
deriving DecidableEq, Repr

/-- A socket of the pool: its current readyState and whether it ever
reached the OPEN state. -/
structure Socket where
  readyState : ReadyState
  everOpened : Bool
deriving DecidableEq, Repr

/-- A pending timeout: its handle and its delay in milliseconds. -/
structure PendingTimer where
  id : Nat
  delay : Nat
deriving DecidableEq, Repr

/-- The complete state of one hook instance together with its
environment. -/
structure World where
  status : Status
  lastMessage : Option String
  ws : Option Nat
  timerRef : Option Nat
  attempts : Nat
  sockets : List (Nat × Socket)
  timers : List PendingTimer
  sent : List (Nat × String)
  closeCalls : List (Nat × Option Nat)
  nextSock : Nat
  nextTimer : Nat
deriving DecidableEq, Repr

/-- The maxReconnectAttempts constant of the hook. -/
def maxReconnectAttempts : Nat := 5

/-- The initial world: status Disconnected, no message, no socket, no
timer, zero attempts. -/
def initWorld : World :=
  ⟨.Disconnected, none, none, none, 0, [], [], [], [], 0, 0⟩

/-- Replace the state of one socket of the pool. -/
def setSock (xs : List (Nat × Socket)) (i : Nat) (sock : Socket) :
    List (Nat × Socket) :=
  xs.map (fun e => if e.1 == i then (e.1, sock) else e)

/-- Whether the socket stored in the ws ref exists and is OPEN: the guard
ws.current?.readyState === WebSocket.OPEN of the hook. -/
def currentOpen (w : World) : Bool :=
  match w.ws with
  | some i =>
      match w.sockets.lookup i with
      | some s => s.readyState == .OPEN
      | none => false
  | none => false

/-- The connect callback: a no-op when the stored socket is OPEN;
otherwise set status Connecting, construct a fresh socket in the
CONNECTING state and overwrite the ws ref with its handle. -/
def connect (w : World) : World :=
  if currentOpen w then w
  else
    { w with status := .Connecting,
             sockets := w.sockets ++ [(w.nextSock, ⟨.CONNECTING, false⟩)],
             ws := some w.nextSock,
             nextSock := w.nextSock + 1 }

/-- An open event on socket s: the socket becomes OPEN and its onopen
handler sets status Connected and resets the retry counter. -/
def onopenEv (w : World) (s : Nat) : World :=
  match w.sockets.lookup s with
  | none => w
  | some sock =>
      if sock.readyState == .CONNECTING then
        { w with sockets := setSock w.sockets s ⟨.OPEN, true⟩,
                 status := .Connected, attempts := 0 }
      else w

/-- A close event with the given code on socket s: the socket becomes
CLOSED and its onclose handler sets status Disconnected and, for a
non-normal code while the retry counter is below the maximum, appends one
back-off timeout of min (1000 times 2 to the counter) 30000 milliseconds
and stores its handle in the timer ref.  A socket that never opened can
only report code 1006. -/
def oncloseEv (w : World) (s : Nat) (code : Nat) : World :=
  match w.sockets.lookup s with
  | none => w
  | some sock =>
      if sock.readyState == .CLOSED then w
      else if !sock.everOpened && code != 1006 then w
      else
        let w1 : World :=
          { w with sockets := setSock w.sockets s ⟨.CLOSED, sock.everOpened⟩,
                   status := .Disconnected }
        if code != 1000 && decide (w.attempts < maxReconnectAttempts) then
          { w1 with
              timers := w1.timers ++
                [⟨w.nextTimer, min (1000 * 2 ^ w.attempts) 30000⟩],
              timerRef := some w.nextTimer,
              nextTimer := w.nextTimer + 1 }
        else w1

/-- An error event on socket s: the transport starts closing the socket
and the onerror handler sets status Error. -/
def onerrorEv (w : World) (s : Nat) : World :=
  match w.sockets.lookup s with
  | none => w
  | some sock =>
      if sock.readyState == .CLOSED then w
      else { w with sockets := setSock w.sockets s ⟨.CLOSING, sock.everOpened⟩,
                    status := .Error }

/-- A message event with the given payload on an OPEN socket s: the
onmessage handler overwrites the last-message slot. -/
def onmessageEv (w : World) (s : Nat) (data : String) : World :=
  match w.sockets.lookup s with
  | none => w
  | some sock =>
      if sock.readyState == .OPEN then { w with lastMessage := some data }
      else w

/-- The sendMessage callback: transmit over the stored socket when it is
OPEN, otherwise only warn and change nothing. -/
def sendMessage (w : World) (m : String) : World :=
  if currentOpen w then { w with sent := w.sent ++ [(w.ws.getD 0, m)] }
  else w

/-- A close call issued by the hook on socket s with an optional code:
the call is logged and a CONNECTING or OPEN socket starts closing; on a
CLOSING or CLOSED socket the call has no transport effect. -/
def closeCall (w : World) (s : Nat) (code : Option Nat) : World :=
  match w.sockets.lookup s with
  | none => w
  | some sock =>
      { w with
          closeCalls := w.closeCalls ++ [(s, code)],
          sockets :=
            if sock.readyState == .CONNECTING || sock.readyState == .OPEN then
              setSock w.sockets s ⟨.CLOSING, sock.everOpened⟩
            else w.sockets }

/-- The clearTimeout guard of the hook: when the timer ref holds a
handle, remove that timeout from the pending pool (the ref itself keeps
its stale value, as in the source). -/
def clearTimer (w : World) : World :=
  match w.timerRef with
  | none => w
  | some t => { w with timers := w.timers.filter (fun tm => tm.id != t) }

/-- The retry-counter reset performed by the reconnect callback. -/
def resetAttempts (w : World) : World := { w with attempts := 0 }

/-- The reconnect callback: clear the tracked timeout, reset the retry
counter, issue a codeless close on the stored socket if any, and connect
again. -/
def reconnect (w : World) : World :=
  match (resetAttempts (clearTimer w)).ws with
  | some s => connect (closeCall (resetAttempts (clearTimer w)) s none)
  | none => connect (resetAttempts (clearTimer w))

/-- The effect cleanup run on unmount: clear the tracked timeout and
close the stored socket with the normal-closure code 1000. -/
def dispose (w : World) : World :=
  match (clearTimer w).ws with
  | some s => closeCall (clearTimer w) s (some 1000)
  | none => clearTimer w

/-- A pending back-off timeout fires: it is consumed, the retry counter
is incremented and connect runs. -/
def fireTimer (w : World) (t : Nat) : World :=
  if w.timers.any (fun tm => tm.id == t) then
    connect { w with timers := w.timers.filter (fun tm => tm.id != t),
                     attempts := w.attempts + 1 }
  else w

/-- The worlds reachable from the initial world through the public entry
points of the hook (mount runs connect, the consumer may send, reconnect
and unmount) and through the transport and timer events. -/
inductive Reachable : World → Prop where
  | init : Reachable initWorld
  | connect {w} : Reachable w → Reachable (connect w)
  | send {w} (m : String) : Reachable w → Reachable (sendMessage w m)
  | reconnect {w} : Reachable w → Reachable (reconnect w)
  | dispose {w} : Reachable w → Reachable (dispose w)
  | fire {w} (t : Nat) : Reachable w → Reachable (fireTimer w t)
  | openEv {w} (s : Nat) : Reachable w → Reachable (onopenEv w s)
  | closeEv {w} (s code : Nat) : Reachable w → Reachable (oncloseEv w s code)
  | errorEv {w} (s : Nat) : Reachable w → Reachable (onerrorEv w s)
  | messageEv {w} (s : Nat) (d : String) :
      Reachable w → Reachable (onmessageEv w s d)

/-- Looking a key up in an association list is unchanged by appending
entries on the right when the key is already bound. -/
theorem lookup_append_some {β : Type} {xs : List (Nat × β)} {k : Nat} {v : β}
    (ys : List (Nat × β)) (h : xs.lookup k = some v) :
    (xs ++ ys).lookup k = some v := by
  induction xs with
  | nil => simp [List.lookup] at h
  | cons hd tl ih =>
      cases hd with
      | mk k1 b1 =>
          cases hk : (k == k1) with
          | true => simp [List.lookup, hk] at h ⊢; exact h
          | false => simp [List.lookup, hk] at h ⊢; exact ih h

/-- The connect callback never touches the retry counter. -/
theorem connect_attempts (w : World) : (connect w).attempts = w.attempts := by
  unfold connect; split <;> rfl

/-- Conclusion of claim C5 at a close event: below the retry budget
exactly one back-off timeout of delay min (1000 times 2 to the counter)
30000 is appended and tracked, the status is Disconnected, and firing
that timeout increments the retry counter; at or above the budget the
pending timeouts and the timer ref are untouched and the status is
Disconnected. -/
def c5Concl (w : World) (s code : Nat) : Prop :=
  (w.attempts < maxReconnectAttempts →
    (oncloseEv w s code).timers =
      w.timers ++ [⟨w.nextTimer, min (1000 * 2 ^ w.attempts) 30000⟩] ∧
    (oncloseEv w s code).timerRef = some w.nextTimer ∧
    (oncloseEv w s code).status = .Disconnected ∧
    (fireTimer (oncloseEv w s code) w.nextTimer).attempts = w.attempts + 1) ∧
  (maxReconnectAttempts ≤ w.attempts →
    (oncloseEv w s code).timers = w.timers ∧
    (oncloseEv w s code).timerRef = w.timerRef ∧
    (oncloseEv w s code).status = .Disconnected)

/-- C5: a close event with a non-normal code on a live socket schedules
exactly one reconnect timeout with delay min (1000 times 2 to the retry
count) 30000 when the retry count is below 5, and the scheduled attempt
increments the count when it fires; at 5 or more no timeout is scheduled
and the channel stays Disconnected. -/
theorem c5_backoff (w : World) (s code : Nat) (sock : Socket)
    (h1 : w.sockets.lookup s = some sock) (h2 : sock.readyState ≠ .CLOSED)
    (h3 : sock.everOpened = true ∨ code = 1006) (h4 : code ≠ 1000) :
    c5Concl w s code := by
  have hcl : (sock.readyState == ReadyState.CLOSED) = false := by
    cases hr : sock.readyState <;> simp_all
  have hop : (!sock.everOpened && code != 1006) = false := by
    rcases h3 with h3 | h3 <;> simp [h3]
  constructor
  · intro hlt
    have hc : (code != 1000 && decide (w.attempts < maxReconnectAttempts)) = true := by
      simp [h4, hlt]
    have heq : oncloseEv w s code =
        { w with sockets := setSock w.sockets s ⟨.CLOSED, sock.everOpened⟩,
                 status := .Disconnected,
                 timers := w.timers ++
                   [⟨w.nextTimer, min (1000 * 2 ^ w.attempts) 30000⟩],
                 timerRef := some w.nextTimer,
                 nextTimer := w.nextTimer + 1 } := by
      unfold oncloseEv
      rw [h1]
      simp only [hcl, hop, hc, Bool.false_eq_true, if_false, if_true]
    refine ⟨by rw [heq], by rw [heq], by rw [heq], ?_⟩
    rw [heq]
    unfold fireTimer
    have hany : ((w.timers ++
        [(⟨w.nextTimer, min (1000 * 2 ^ w.attempts) 30000⟩ : PendingTimer)]).any
        (fun tm => tm.id == w.nextTimer)) = true := by
      rw [List.any_append]; simp
    simp only [hany, if_true]
    rw [connect_attempts]
  · intro hge
    have hc : (code != 1000 && decide (w.attempts < maxReconnectAttempts)) = false := by
      have hn : ¬ (w.attempts < maxReconnectAttempts) := by omega
      simp [hn]
    have heq : oncloseEv w s code =
        { w with sockets := setSock w.sockets s ⟨.CLOSED, sock.everOpened⟩,
                 status := .Disconnected } := by
      unfold oncloseEv
      rw [h1]
      simp only [hcl, hop, hc, Bool.false_eq_true, if_false, if_true]
    exact ⟨by rw [heq], by rw [heq], by rw [heq]⟩

/-- The world right after the mount effect ran connect once. -/
def wAfterConnect : World := connect initWorld

/-- Witness for C5: the freshly constructed socket fails with code
1006. -/
theorem c5_witness :
    (wAfterConnect.sockets.lookup 0 = some ⟨.CONNECTING, false⟩ ∧
      (⟨.CONNECTING, false⟩ : Socket).readyState ≠ .CLOSED ∧
      ((⟨.CONNECTING, false⟩ : Socket).everOpened = true ∨ (1006 : Nat) = 1006) ∧
      (1006 : Nat) ≠ 1000) ∧
    c5Concl wAfterConnect 0 1006 :=
  ⟨⟨by decide, by decide, Or.inr rfl, by decide⟩,
    c5_backoff wAfterConnect 0 1006 ⟨.CONNECTING, false⟩ (by decide) (by decide)
      (Or.inr rfl) (by decide)⟩

/-- Claim C6 as stated: sending in any reachable world whose status is
not Connected changes nothing. -/
def sendNoOpClaim : Prop :=
  ∀ w : World, Reachable w → w.status ≠ Status.Connected →
    ∀ m : String, sendMessage w m = w

/-- A reachable world in which the status is Disconnected while the
stored socket is OPEN: mount connects socket 0, reconnect is invoked
while socket 0 is still CONNECTING and constructs socket 1, socket 1
opens, then the abandoned socket 0 fails; its close handler sets the
status to Disconnected although socket 1 is open in the ws ref. -/
def wStaleClose : World :=
  oncloseEv (onopenEv (reconnect (connect initWorld)) 1) 0 1006

/-- C6 as stated is false: in the stale-close world the status is
Disconnected, yet sendMessage transmits over the stored open socket and
changes the world. -/
theorem c6_counterexample : ¬ sendNoOpClaim := by
  intro hclaim
  have hr : Reachable wStaleClose :=
    Reachable.closeEv 0 1006
      (Reachable.openEv 1 (Reachable.reconnect (Reachable.connect Reachable.init)))
  exact absurd (hclaim wStaleClose hr (by decide) "q") (by decide)

/-- C6 amended: sendMessage is a strict no-op (nothing transmitted,
nothing queued, no state change, no exception, the function being total)
exactly when the guard of the source holds, namely whenever the stored
socket is not open; when no socket has ever been opened this coincides
with the channel not being Connected. -/
theorem c6_send_guard (w : World) (m : String) (h : currentOpen w = false) :
    sendMessage w m = w := by
  simp [sendMessage, h]

/-- Witness for the amended C6 in the initial, disconnected world. -/
theorem c6_witness :
    currentOpen initWorld = false ∧ sendMessage initWorld "q" = initWorld :=
  ⟨by decide, c6_send_guard initWorld "q" (by decide)⟩

/-- Mount runs connect; socket 0 is still CONNECTING. -/
def w7a : World := connect initWorld

/-- The component unmounts before the handshake completes: the cleanup
clears no timeout (none is pending) and calls close with code 1000 on the
CONNECTING socket. -/
def w7b : World := dispose w7a

/-- The transport reports the failed handshake: the close event carries
code 1006, and the onclose handler of the disposed hook schedules a
back-off timeout. -/
def w7c : World := oncloseEv w7b 0 1006

/-- C7 fails on the code: disposal does close the socket with code 1000
and leaves no timeout pending, yet when the unmount happens while the
socket is still CONNECTING the subsequent 1006 close event schedules a
reconnect timeout after disposal, and firing it constructs a second
socket - a further automatic connection attempt. -/
theorem c7_dispose_leak :
    Reachable w7c ∧
    w7b.closeCalls = [(0, some 1000)] ∧
    w7b.timers = [] ∧
    w7c.timers = [⟨0, 1000⟩] ∧
    (fireTimer w7c 0).sockets.length = 2 ∧
    (fireTimer w7c 0).ws = some 1 :=
  ⟨Reachable.closeEv 0 1006 (Reachable.dispose (Reachable.connect Reachable.init)),
    by decide⟩

/-- C8: calling connect while the channel is Connected and the stored
socket is open is a strict no-op: the world is returned unchanged, so no
new socket is constructed and status, retry count and the stored handle
are untouched. -/
theorem c8_connect_idempotent (w : World) (h1 : w.status = Status.Connected)
    (h2 : currentOpen w = true) : connect w = w := by
  simp [connect, h2]

/-- A connected world: mount connects socket 0 and it opens. -/
def wConn : World := onopenEv (connect initWorld) 0

/-- Witness for C8 in a concrete connected world. -/
theorem c8_witness :
    (wConn.status = Status.Connected ∧ currentOpen wConn = true) ∧
    connect wConn = wConn :=
  ⟨by decide, c8_connect_idempotent wConn (by decide) (by decide)⟩

/-- C9: when connect runs while the stored socket exists but is still
CONNECTING, the open-socket guard does not fire: a second socket is
constructed and its handle overwrites the ws ref, while the earlier
socket stays in the pool, still CONNECTING and no longer referenced. -/
theorem c9_connect_guard (w : World) (s : Nat) (b : Bool)
    (h1 : w.ws = some s) (h2 : w.sockets.lookup s = some ⟨.CONNECTING, b⟩)
    (h3 : s ≠ w.nextSock) :
    (connect w).sockets = w.sockets ++ [(w.nextSock, ⟨.CONNECTING, false⟩)] ∧
    (connect w).ws = some w.nextSock ∧
    (connect w).ws ≠ w.ws ∧
    (connect w).sockets.lookup s = some ⟨.CONNECTING, b⟩ := by
  have hco : currentOpen w = false := by
    simp [currentOpen, h1, h2]
  unfold connect
  rw [hco]
  refine ⟨rfl, rfl, ?_, ?_⟩
  · rw [h1]
    intro hh
    exact h3 (Option.some.inj hh).symm
  · exact lookup_append_some _ h2

/-- A world whose stored socket is still CONNECTING. -/
def wConnecting : World := connect initWorld

/-- Witness for C9: a second connect while socket 0 is CONNECTING. -/
theorem c9_witness :
    (wConnecting.ws = some 0 ∧
      wConnecting.sockets.lookup 0 = some ⟨.CONNECTING, false⟩ ∧
      (0 : Nat) ≠ wConnecting.nextSock) ∧
    ((connect wConnecting).sockets =
        wConnecting.sockets ++ [(wConnecting.nextSock, ⟨.CONNECTING, false⟩)] ∧
      (connect wConnecting).ws = some wConnecting.nextSock ∧
      (connect wConnecting).ws ≠ wConnecting.ws ∧
      (connect wConnecting).sockets.lookup 0 = some ⟨.CONNECTING, false⟩) :=
  ⟨⟨by decide, by decide, by decide⟩,
    c9_connect_guard wConnecting 0 false (by decide) (by decide) (by decide)⟩

/-- The connect callback never touches the last-message slot. -/
theorem connect_lastMessage (w : World) :
    (connect w).lastMessage = w.lastMessage := by
  unfold connect; split <;> rfl

/-- Clearing the tracked timeout never touches the last-message slot. -/
theorem clearTimer_lastMessage (w : World) :
    (clearTimer w).lastMessage = w.lastMessage := by
  unfold clearTimer; split <;> rfl

/-- A close call never touches the last-message slot. -/
theorem closeCall_lastMessage (w : World) (s : Nat) (code : Option Nat) :
    (closeCall w s code).lastMessage = w.lastMessage := by
  unfold closeCall; split <;> rfl

/-- An open event never touches the last-message slot. -/
theorem onopenEv_lastMessage (w : World) (s : Nat) :
    (onopenEv w s).lastMessage = w.lastMessage := by
  unfold onopenEv
  split
  · rfl
  · split <;> rfl

/-- A close event never touches the last-message slot. -/
theorem oncloseEv_lastMessage (w : World) (s code : Nat) :
    (oncloseEv w s code).lastMessage = w.lastMessage := by
  unfold oncloseEv
  split
  · rfl
  · split
    · rfl
    · split
      · rfl
      · split <;> rfl

/-- An error event never touches the last-message slot. -/
theorem onerrorEv_lastMessage (w : World) (s : Nat) :
    (onerrorEv w s).lastMessage = w.lastMessage := by
  unfold onerrorEv
  split
  · rfl
  · split <;> rfl

/-- Sending never touches the last-message slot. -/
theorem sendMessage_lastMessage (w : World) (m : String) :
    (sendMessage w m).lastMessage = w.lastMessage := by
  unfold sendMessage; split <;> rfl

/-- The reconnect callback never touches the last-message slot. -/
theorem reconnect_lastMessage (w : World) :
    (reconnect w).lastMessage = w.lastMessage := by
  unfold reconnect
  split
  · rw [connect_lastMessage, closeCall_lastMessage]
    exact clearTimer_lastMessage w
  · rw [connect_lastMessage]
    exact clearTimer_lastMessage w

/-- Disposal never touches the last-message slot. -/
theorem dispose_lastMessage (w : World) :
    (dispose w).lastMessage = w.lastMessage := by
  unfold dispose
  split
  · rw [closeCall_lastMessage]
    exact clearTimer_lastMessage w
  · exact clearTimer_lastMessage w

/-- A firing timeout never touches the last-message slot. -/
theorem fireTimer_lastMessage (w : World) (t : Nat) :
    (fireTimer w t).lastMessage = w.lastMessage := by
  unfold fireTimer
  split
  · rw [connect_lastMessage]
  · rfl

/-- C10: the last-message slot starts as none and is written only by
message arrival: connect, open, close with any code, transport error,
send, reconnect, disposal and firing timeouts all leave it untouched,
and a message event either writes the arriving payload or changes
nothing.  In particular a message received before a disconnect is still
observable after reconnection. -/
theorem c10_last_message_frame :
    initWorld.lastMessage = none ∧
    (∀ w : World, (connect w).lastMessage = w.lastMessage) ∧
    (∀ w : World, ∀ s : Nat, (onopenEv w s).lastMessage = w.lastMessage) ∧
    (∀ w : World, ∀ s code : Nat,
      (oncloseEv w s code).lastMessage = w.lastMessage) ∧
    (∀ w : World, ∀ s : Nat, (onerrorEv w s).lastMessage = w.lastMessage) ∧
    (∀ w : World, ∀ m : String, (sendMessage w m).lastMessage = w.lastMessage) ∧
    (∀ w : World, (reconnect w).lastMessage = w.lastMessage) ∧
    (∀ w : World, (dispose w).lastMessage = w.lastMessage) ∧
    (∀ w : World, ∀ t : Nat, (fireTimer w t).lastMessage = w.lastMessage) ∧
    (∀ w : World, ∀ s : Nat, ∀ d : String,
      (onmessageEv w s d).lastMessage = some d ∨
      (onmessageEv w s d).lastMessage = w.lastMessage) := by
  refine ⟨rfl, connect_lastMessage, onopenEv_lastMessage, oncloseEv_lastMessage,
    onerrorEv_lastMessage, sendMessage_lastMessage, reconnect_lastMessage,
    dispose_lastMessage, fireTimer_lastMessage, ?_⟩
  intro w s d
  unfold onmessageEv
  split
  · exact Or.inr rfl
  · split
    · exact Or.inl rfl
    · exact Or.inr rfl

end RagClient
